import Mathlib

/-!
Verification of the real-time dashboard synchronization core of the
`ShopifyDashboard` component
(`src/odoo_shopify_automation/static/src/js/dashboard.js`).

The component is shallowly embedded: the mutable `this.state` / `this.*`
fields become a `Component` record, every method that the claims touch
becomes a pure state-transformer on that record, and the JavaScript
runtime facilities the code uses (the millisecond clock `Date.now()`,
`setTimeout` / `setInterval` / `clearInterval`, the WebSocket object and
the Odoo `notification` service) are made explicit:

* the clock is passed in as a `now : Nat` argument;
* pending `setTimeout` timers live in `Component.timeouts` as
  `(timerId, fireAt, action)` triples and `setInterval` handles in
  `Component.activeIntervals`; firing or clearing a timer is a separate
  transition (`fireTimeout`), matching the event-loop semantics;
* `new WebSocket(...)` increments `openSockets` (the source keeps the
  socket in a local variable and never stores or closes it);
* `this.notification.add(msg, {type})` appends to `serviceNotifs`
  (the framework toast service, distinct from `this.state.notifications`);
* JavaScript dynamic-field arithmetic is kept: `this.state.realTimeData`
  starts as `{}` so its counters are `Option Int`, where `none` stands
  for `undefined`/`NaN` (incrementing `undefined` yields `NaN`, and
  `NaN` is absorbing), and `x++` is `incJs`;
* `JSON.parse` in `ws.onmessage` can throw; the handler has no
  `try`/`catch`, so the message handler is modelled as returning
  `Except String Component`, the parse outcome being an input.
-/

namespace Dashboard

/-- JavaScript `x++` on a dynamic field: `undefined++` and `NaN++` stay
non-numeric (`none`); a number is incremented. -/
def incJs : Option Int → Option Int
  | some n => some (n + 1)
  | none => none

/-- The object literal a caller passes to `addNotification`.  All call
sites in the source pass `{type, title, message, icon}` and never an
`id`, but a JavaScript object may carry one, hence `id : Option Nat`
(`none` = the `id` property is absent / `undefined`). -/
structure NotifInput where
  type : String
  title : String
  message : String
  icon : String
  id : Option Nat := none
deriving DecidableEq, Repr

/-- A notification as stored in `this.state.notifications`:
the input spread plus `id: Date.now()` and `timestamp: new Date()`. -/
structure StoredNotif where
  type : String
  title : String
  message : String
  icon : String
  id : Nat
  timestamp : Nat
deriving DecidableEq, Repr

/-- Source `{...notification, id: Date.now(), timestamp: new Date()}` at clock
value `now`. -/
def mkStored (n : NotifInput) (now : Nat) : StoredNotif :=
  { type := n.type, title := n.title, message := n.message,
    icon := n.icon, id := now, timestamp := now }

/-- Source `data.sales_chart_data` inside a poll snapshot: `{labels, values}`. -/
structure SalesChartPayload where
  labels : List String
  values : List Int
deriving DecidableEq, Repr

/-- The `data` object returned by the `get_dashboard_data` RPC and
assigned wholesale to `this.state.realTimeData`.  Fields the dashboard
reads; `none` = the property is absent (`undefined`).  The initial
`realTimeData = {}` is `emptySnapshot`. -/
structure Snapshot where
  order_count : Option Int := none
  customer_count : Option Int := none
  error_count : Option Int := none
  sales_chart_data : Option SalesChartPayload := none
  revenue_distribution : Option (List Int) := none
  customer_growth : Option (List Int) := none
  inventory_status : Option (List Int) := none
deriving DecidableEq, Repr

def emptySnapshot : Snapshot := {}

/-- The mutable `chart.data` of the sales line chart:
`data.labels` and `data.datasets[0].data`. -/
structure SalesChartData where
  labels : List String
  data : List Int
deriving DecidableEq, Repr

/-- Source `this.chartInstances`: a chart is `some _` when its canvas element
existed and `initialize*Chart` ran; for revenue/customer/inventory only
`datasets[0].data` is ever updated, so just that list is kept. -/
structure Charts where
  sales : Option SalesChartData := none
  revenue : Option (List Int) := none
  customer : Option (List Int) := none
  inventory : Option (List Int) := none
deriving DecidableEq, Repr

/-- What a pending `setTimeout` callback will do when it fires. -/
inductive TimerAction where
  /-- Source `() => this.removeNotification(notification.id)` — the captured
  `notification` is the caller's argument object, so the captured id is
  that object's `id` property (an `Option Nat`). -/
  | removeNotif (id : Option Nat)
  /-- Source `() => this.setupWebSocket()` scheduled by `ws.onclose`. -/
  | reconnect
deriving DecidableEq, Repr

/-- The `data.payload` of an inbound push message.  JavaScript payloads
are dynamic records; this carries every property any handler reads. -/
structure Payload where
  order_number : Nat := 0
  amount : Int := 0
  name : String := ""
  message : String := ""
  health : List (String × Int) := []
deriving DecidableEq, Repr

/-- An inbound push message after `JSON.parse`: `{type, payload}`. -/
structure Message where
  type : String
  payload : Payload
deriving DecidableEq, Repr

/-- The component instance: `this.state` fields plus the instance
fields and the modelled runtime (timers, sockets, toast service). -/
structure Component where
  loading : Bool := false
  realTimeData : Snapshot := {}
  notifications : List StoredNotif := []
  systemHealth : List (String × Int) := []
  charts : Charts := {}
  updateInterval : Option Nat := none
  /-- allocator for `setTimeout`/`setInterval` handles -/
  nextTimerId : Nat := 0
  /-- handles of `setInterval` timers that have not been cleared -/
  activeIntervals : List Nat := []
  /-- pending `setTimeout`s: (handle, fire time, callback) -/
  timeouts : List (Nat × Nat × TimerAction) := []
  /-- WebSocket objects constructed and never closed by the component -/
  openSockets : Nat := 0
  /-- calls to the Odoo toast service `this.notification.add(msg, {type})` -/
  serviceNotifs : List (String × String) := []
deriving DecidableEq, Repr

/-- The component right after `setup()`. -/
def initComponent : Component := {}

/-- Source `setTimeout(cb, delay)` at clock `now`: allocates a handle and
records the pending timer. -/
def schedTimeout (now delay : Nat) (a : TimerAction) (c : Component) : Component :=
  { c with timeouts := c.timeouts ++ [(c.nextTimerId, now + delay, a)],
           nextTimerId := c.nextTimerId + 1 }

/-- Source `addNotification(notification)` at clock `now`: unshift the spread
copy, truncate to the last 10, then schedule the 5-second auto-remove
timer capturing `notification.id` (the argument's `id` property). -/
def addNotification (n : NotifInput) (now : Nat) (c : Component) : Component :=
  let q := mkStored n now :: c.notifications
  let q := if q.length > 10 then q.take 10 else q
  schedTimeout now 5000 (.removeNotif n.id) { c with notifications := q }

/-- Source `removeNotification(notificationId)` on the queue alone:
`findIndex(n => n.id === notificationId)` then `splice(index, 1)` when
found.  `nid = none` is a call with `undefined`, which a stored numeric
id never strictly-equals. -/
def removeNotifList (nid : Option Nat) (q : List StoredNotif) : List StoredNotif :=
  match q.findIdx? (fun s => some s.id == nid) with
  | some i => q.eraseIdx i
  | none => q

/-- Source `removeNotification(notificationId)` on the component. -/
def removeNotification (nid : Option Nat) (c : Component) : Component :=
  { c with notifications := removeNotifList nid c.notifications }

/-- Source `now.toLocaleTimeString()` — opaque rendering of the clock into the
chart label; the claims never constrain the label text. -/
def toLocaleTimeString (now : Nat) : String := toString now

/-- The mutation `updateSalesChart` performs on the chart data: push the
label and the amount, then if `labels.length > 20` shift both once. -/
def salesAppendData (timeLabel : String) (amount : Int) (cd : SalesChartData) :
    SalesChartData :=
  let labels := cd.labels ++ [timeLabel]
  let data := cd.data ++ [amount]
  if labels.length > 20 then { labels := labels.tail, data := data.tail }
  else { labels := labels, data := data }

/-- Source `updateSalesChart(orderData)` at clock `now`: no-op when the sales
chart was never initialized (`chartInstances.get('sales')` is falsy). -/
def updateSalesChart (amount : Int) (now : Nat) (c : Component) : Component :=
  match c.charts.sales with
  | none => c
  | some cd =>
      { c with charts :=
          { c.charts with sales := some (salesAppendData (toLocaleTimeString now) amount cd) } }

/-- Source `updateRevenueChart(data)`: assign `datasets[0].data` wholesale when
the chart exists and the snapshot carries `revenue_distribution`. -/
def updateRevenueChart (data : Snapshot) (c : Component) : Component :=
  match c.charts.revenue, data.revenue_distribution with
  | some _, some d => { c with charts := { c.charts with revenue := some d } }
  | _, _ => c

/-- Source `updateCustomerChart(data)`. -/
def updateCustomerChart (data : Snapshot) (c : Component) : Component :=
  match c.charts.customer, data.customer_growth with
  | some _, some d => { c with charts := { c.charts with customer := some d } }
  | _, _ => c

/-- Source `updateInventoryChart(data)`. -/
def updateInventoryChart (data : Snapshot) (c : Component) : Component :=
  match c.charts.inventory, data.inventory_status with
  | some _, some d => { c with charts := { c.charts with inventory := some d } }
  | _, _ => c

/-- The inline sales branch at the top of `updateCharts(data)`: when the
sales chart exists and the snapshot carries `sales_chart_data`, assign
its `labels` and `values` lists wholesale (no truncation in the
source). -/
def updateChartsSalesPart (data : Snapshot) (c : Component) : Component :=
  match c.charts.sales, data.sales_chart_data with
  | some _, some scd =>
      { c with charts := { c.charts with sales := some { labels := scd.labels, data := scd.values } } }
  | _, _ => c

/-- Source `updateCharts(data)`: the sales branch, then the other charts. -/
def updateCharts (data : Snapshot) (c : Component) : Component :=
  updateInventoryChart data (updateCustomerChart data (updateRevenueChart data
    (updateChartsSalesPart data c)))

/-- First half of `loadDashboardData()`: `this.state.loading = true`
before awaiting the RPC. -/
def loadDashboardDataStart (c : Component) : Component := { c with loading := true }

/-- Second half of `loadDashboardData()` once the RPC settles:
on success assign `realTimeData` and `updateCharts`, on failure
(`result = none`) call the toast service with a danger message; either
way the `finally` block clears `loading`. -/
def loadDashboardDataFinish (result : Option Snapshot) (c : Component) : Component :=
  match result with
  | some data =>
      let c := { c with realTimeData := data }
      let c := updateCharts data c
      { c with loading := false }
  | none =>
      { c with serviceNotifs := c.serviceNotifs ++ [("Failed to load dashboard data", "danger")],
               loading := false }

/-- One whole run of `loadDashboardData()` whose RPC settles with
`result` (`none` = the ORM call threw). -/
def loadDashboardData (result : Option Snapshot) (c : Component) : Component :=
  loadDashboardDataFinish result (loadDashboardDataStart c)

/-- Source `setupWebSocket()`: constructs a `WebSocket` kept only in a local
variable — the component records just that one more socket exists. -/
def setupWebSocket (c : Component) : Component :=
  { c with openSockets := c.openSockets + 1 }

/-- Source `ws.onclose` at clock `now`: `setTimeout(() => this.setupWebSocket(), 5000)`,
an untracked handle. -/
def wsOnClose (now : Nat) (c : Component) : Component :=
  schedTimeout now 5000 .reconnect c

/-- Source `initializeRealTimeUpdates()`: `setInterval(..., 30000)` whose handle
is stored in `this.updateInterval`, then `setupWebSocket()`. -/
def initializeRealTimeUpdates (c : Component) : Component :=
  let tid := c.nextTimerId
  let c := { c with updateInterval := some tid,
                    activeIntervals := c.activeIntervals ++ [tid],
                    nextTimerId := tid + 1 }
  setupWebSocket c

/-- Source `handleOrderCreated(orderData)`: `order_count++`, a success
notification, then `updateSalesChart`. -/
def handleOrderCreated (p : Payload) (now : Nat) (c : Component) : Component :=
  let c := { c with realTimeData :=
      { c.realTimeData with order_count := incJs c.realTimeData.order_count } }
  let c := addNotification
    { type := "success", title := "New Order",
      message := "Order #" ++ toString p.order_number ++ " created",
      icon := "fa-shopping-cart" } now c
  updateSalesChart p.amount now c

/-- Source `handleProductUpdated(productData)`: only an info notification. -/
def handleProductUpdated (p : Payload) (now : Nat) (c : Component) : Component :=
  addNotification
    { type := "info", title := "Product Updated",
      message := "Product \"" ++ p.name ++ "\" updated",
      icon := "fa-cube" } now c

/-- Source `handleCustomerSynced(customerData)`: `customer_count++` plus a
success notification. -/
def handleCustomerSynced (p : Payload) (now : Nat) (c : Component) : Component :=
  let c := { c with realTimeData :=
      { c.realTimeData with customer_count := incJs c.realTimeData.customer_count } }
  addNotification
    { type := "success", title := "Customer Synced",
      message := "Customer \"" ++ p.name ++ "\" synced",
      icon := "fa-users" } now c

/-- Source `handleErrorOccurred(errorData)`: `error_count++` plus a danger
notification. -/
def handleErrorOccurred (p : Payload) (now : Nat) (c : Component) : Component :=
  let c := { c with realTimeData :=
      { c.realTimeData with error_count := incJs c.realTimeData.error_count } }
  addNotification
    { type := "danger", title := "Error Occurred", message := p.message,
      icon := "fa-exclamation-triangle" } now c

/-- Source `handleSystemHealthUpdate(healthData)`: assign `systemHealth`
wholesale (`updateSystemHealthDisplay` only touches the DOM). -/
def handleSystemHealthUpdate (p : Payload) (c : Component) : Component :=
  { c with systemHealth := p.health }

/-- Source `handleRealTimeUpdate(data)`: the `switch (data.type)` with no
`default` clause — an unknown type falls through with no effect. -/
def handleRealTimeUpdate (m : Message) (now : Nat) (c : Component) : Component :=
  if m.type = "order_created" then handleOrderCreated m.payload now c
  else if m.type = "product_updated" then handleProductUpdated m.payload now c
  else if m.type = "customer_synced" then handleCustomerSynced m.payload now c
  else if m.type = "error_occurred" then handleErrorOccurred m.payload now c
  else if m.type = "system_health" then handleSystemHealthUpdate m.payload c
  else c

/-- Source `ws.onmessage`: `const data = JSON.parse(event.data);
this.handleRealTimeUpdate(data);` with no `try`/`catch`.  The parse
outcome of the frame is the input: a frame JSON.parse rejects
(`Except.error e`) makes the handler itself throw `e` before any state
is touched. -/
def wsOnMessage (parsed : Except String Message) (now : Nat) (c : Component) :
    Except String Component :=
  match parsed with
  | .error e => .error e
  | .ok m => .ok (handleRealTimeUpdate m now c)

/-- The event loop firing the pending `setTimeout` with handle `tid`:
the timer is consumed and its callback runs. -/
def fireTimeout (tid : Nat) (c : Component) : Component :=
  match c.timeouts.find? (fun t => t.1 == tid) with
  | none => c
  | some (_, _, a) =>
      let c := { c with timeouts := c.timeouts.filter (fun t => t.1 != tid) }
      match a with
      | .removeNotif nid => removeNotification nid c
      | .reconnect => setupWebSocket c

/-- The `if (this.updateInterval) clearInterval(this.updateInterval)`
step of `willUnmount()`: the handle stops being an active interval (the
field itself is not nulled). -/
def clearUpdateInterval (c : Component) : Component :=
  match c.updateInterval with
  | some tid => { c with activeIntervals := c.activeIntervals.filter (fun i => i != tid) }
  | none => c

/-- Source `willUnmount()`: clear the interval, destroy every chart instance
and clear the map.  Nothing else is cancelled or closed. -/
def willUnmount (c : Component) : Component :=
  { clearUpdateInterval c with charts := {} }

/-- The 30-second interval tick: when the stored handle is still an
active interval, the callback `() => this.loadDashboardData()` runs
(the whole fetch settling with `result`). -/
def intervalTick (result : Option Snapshot) (c : Component) : Component :=
  match c.updateInterval with
  | some tid => if tid ∈ c.activeIntervals then loadDashboardData result c else c
  | none => c

/-- A direct sequence of `addNotification` calls, each with its clock
value, run on a freshly set-up component. -/
def runPushes (seq : List (NotifInput × Nat)) : Component :=
  seq.foldl (fun c p => addNotification p.1 p.2 c) initComponent

/-- The sales chart data as `initializeSalesChart` creates it. -/
def initSalesChart : SalesChartData := { labels := [], data := [] }

/-- A sequence of `updateSalesChart` mutations (label, amount) applied
to the freshly initialized sales chart data. -/
def runAppends (seq : List (String × Int)) : SalesChartData :=
  seq.foldl (fun cd p => salesAppendData p.1 p.2 cd) initSalesChart

/-- The last (at most) 20 elements of a list, in order. -/
def window20 {α : Type} (l : List α) : List α := l.drop (l.length - 20)

/-! ## Characterization lemmas -/

theorem window20_of_le {α : Type} (l : List α) (h : l.length ≤ 20) :
    window20 l = l := by
  simp [window20, Nat.sub_eq_zero_of_le h]

theorem window20_length {α : Type} (l : List α) :
    (window20 l).length = min l.length 20 := by
  simp [window20]
  omega

/-- Whatever the prior queue, `addNotification` leaves the new stored
notification in front of the 9 newest old ones. -/
theorem addNotification_notifications (n : NotifInput) (now : Nat) (c : Component) :
    (addNotification n now c).notifications = mkStored n now :: c.notifications.take 9 := by
  show (if (mkStored n now :: c.notifications).length > 10
        then (mkStored n now :: c.notifications).take 10
        else mkStored n now :: c.notifications) = _
  by_cases h : (mkStored n now :: c.notifications).length > 10
  · rw [if_pos h]
    rfl
  · rw [if_neg h]
    have hlen : c.notifications.length ≤ 9 := by
      simp only [List.length_cons] at h
      omega
    rw [List.take_of_length_le hlen]

/-- One step of `salesAppendData` on the 20-window of a history equals
the 20-window of the extended history. -/
theorem salesAppendData_window (L : List String) (V : List Int) (a : String) (b : Int)
    (h : L.length = V.length) :
    salesAppendData a b { labels := window20 L, data := window20 V } =
      { labels := window20 (L ++ [a]), data := window20 (V ++ [b]) } := by
  unfold salesAppendData window20
  by_cases h20 : L.length < 20
  · have hL : L.length - 20 = 0 := by omega
    have hV : V.length - 20 = 0 := by omega
    have hL2 : (L ++ [a]).length - 20 = 0 := by simp; omega
    have hV2 : (V ++ [b]).length - 20 = 0 := by simp; omega
    simp only [hL, hV, hL2, hV2, List.drop_zero]
    have hc : ¬ (L ++ [a]).length > 20 := by simp; omega
    rw [if_neg hc]
  · have h20' : 20 ≤ L.length := by omega
    have hne : L.drop (L.length - 20) ≠ [] := by
      apply List.ne_nil_of_length_pos
      simp [List.length_drop]
      omega
    have hneV : V.drop (V.length - 20) ≠ [] := by
      apply List.ne_nil_of_length_pos
      simp [List.length_drop]
      omega
    have hc : (L.drop (L.length - 20) ++ [a]).length > 20 := by
      simp [List.length_drop]
      omega
    rw [if_pos hc]
    rw [List.tail_append_of_ne_nil hne, List.tail_append_of_ne_nil hneV]
    rw [List.tail_drop, List.tail_drop]
    have e1 : (L ++ [a]).length - 20 = L.length - 20 + 1 := by simp; omega
    have e2 : (V ++ [b]).length - 20 = V.length - 20 + 1 := by simp; omega
    rw [e1, e2]
    rw [List.drop_append_of_le_length (by omega),
        List.drop_append_of_le_length (by omega)]

/-- The chart data after any append history is exactly the 20-window of
that history, component-wise. -/
theorem runAppends_eq (seq : List (String × Int)) :
    runAppends seq =
      { labels := window20 (seq.map Prod.fst), data := window20 (seq.map Prod.snd) } := by
  induction seq using List.reverseRecOn with
  | nil => rfl
  | append_singleton seq p ih =>
      have h : runAppends (seq ++ [p]) = salesAppendData p.1 p.2 (runAppends seq) := by
        simp [runAppends, List.foldl_append]
      rw [h, ih, salesAppendData_window _ _ _ _ (by simp)]
      simp [List.map_append]

/-! ## Claims -/

/-- C1: for every sequence of `addNotification` pushes on the
notification queue (maxSize hard-coded to 10), the queue length is at
most 10 immediately after every push — here, after the final push of an
arbitrary sequence, which covers every push of every sequence by taking
prefixes — and the notification just pushed is the first element. -/
theorem notifQueue_bounded_newest_first
    (seq : List (NotifInput × Nat)) (n : NotifInput) (now : Nat) :
    (runPushes (seq ++ [(n, now)])).notifications.length ≤ 10 ∧
    (runPushes (seq ++ [(n, now)])).notifications.head? = some (mkStored n now) := by
  have h : runPushes (seq ++ [(n, now)]) = addNotification n now (runPushes seq) := by
    simp [runPushes, List.foldl_append]
  rw [h, addNotification_notifications]
  constructor
  · simp [List.length_take]
  · rfl

/-- C3: after any sequence of sales-chart appends (capacity hard-coded
to 20) starting from the initialized chart, the readable series holds at
most 20 points, and it is exactly the suffix of the append history — the
most recently appended points, in insertion order, the oldest evicted
from the front. -/
theorem salesSeries_sliding_window (seq : List (String × Int)) :
    (runAppends seq).data.length ≤ 20 ∧
    (runAppends seq).data = (seq.map Prod.snd).drop (seq.length - 20) ∧
    (runAppends seq).labels = (seq.map Prod.fst).drop (seq.length - 20) := by
  rw [runAppends_eq]
  refine ⟨?_, ?_, ?_⟩
  · rw [window20_length]
    exact min_le_right _ _
  · simp [window20]
  · simp [window20]

/-- Source `updateSalesChart` on a component whose sales chart exists. -/
theorem updateSalesChart_of_sales (amount : Int) (now : Nat) (c : Component)
    (cd : SalesChartData) (h : c.charts.sales = some cd) :
    updateSalesChart amount now c =
      { c with charts :=
          { c.charts with sales := some (salesAppendData (toLocaleTimeString now) amount cd) } } := by
  unfold updateSalesChart
  rw [h]

/-- Source `salesAppendData` on an in-capacity chart is the 20-window of the
extended lists. -/
theorem salesAppendData_bounded (a : String) (b : Int) (cd : SalesChartData)
    (hlen : cd.labels.length = cd.data.length) (hcap : cd.data.length ≤ 20) :
    salesAppendData a b cd =
      { labels := window20 (cd.labels ++ [a]), data := window20 (cd.data ++ [b]) } := by
  have h1 : window20 cd.labels = cd.labels := window20_of_le _ (by omega)
  have h2 : window20 cd.data = cd.data := window20_of_le _ hcap
  have h := salesAppendData_window cd.labels cd.data a b hlen
  rw [h1, h2] at h
  exact h

/-- C4: dispatching an `order_created` event with amount 42 on a
component whose order counter holds a number and whose sales chart is
initialized and in capacity: the counter goes up by exactly one, the
sales series becomes the 20-window of the old series with the single
point 42 appended at the end (an append, not a replace), and the
notification queue gains exactly one notification, of type `success`,
in front. -/
theorem orderCreated_effects (p : Payload) (now : Nat) (c : Component) (k : Int)
    (cd : SalesChartData)
    (hamount : p.amount = 42)
    (hcount : c.realTimeData.order_count = some k)
    (hchart : c.charts.sales = some cd)
    (hlen : cd.labels.length = cd.data.length)
    (hcap : cd.data.length ≤ 20) :
    (handleRealTimeUpdate { type := "order_created", payload := p } now c).realTimeData.order_count
        = some (k + 1) ∧
    (handleRealTimeUpdate { type := "order_created", payload := p } now c).charts.sales =
      some { labels := window20 (cd.labels ++ [toLocaleTimeString now]),
             data := window20 (cd.data ++ [42]) } ∧
    (handleRealTimeUpdate { type := "order_created", payload := p } now c).notifications =
      mkStored { type := "success", title := "New Order",
                 message := "Order #" ++ toString p.order_number ++ " created",
                 icon := "fa-shopping-cart" } now :: c.notifications.take 9 := by
  have hdisp : handleRealTimeUpdate { type := "order_created", payload := p } now c =
      updateSalesChart p.amount now (addNotification
        { type := "success", title := "New Order",
          message := "Order #" ++ toString p.order_number ++ " created",
          icon := "fa-shopping-cart" } now
        { c with realTimeData :=
            { c.realTimeData with order_count := incJs c.realTimeData.order_count } }) := rfl
  have hchart' : (addNotification
      { type := "success", title := "New Order",
        message := "Order #" ++ toString p.order_number ++ " created",
        icon := "fa-shopping-cart" } now
      { c with realTimeData :=
          { c.realTimeData with order_count := incJs c.realTimeData.order_count } }).charts.sales
      = some cd := hchart
  rw [hdisp, hamount, updateSalesChart_of_sales 42 now _ cd hchart']
  refine ⟨?_, ?_, ?_⟩
  · show incJs c.realTimeData.order_count = some (k + 1)
    rw [hcount]
    rfl
  · show some (salesAppendData (toLocaleTimeString now) 42 cd) = _
    rw [salesAppendData_bounded _ _ _ hlen hcap]
  · show (addNotification _ now _).notifications = _
    rw [addNotification_notifications]

/-- A concrete mounted state for the C4 scenario: five orders counted so
far, sales chart initialized and empty. -/
def c4Start : Component :=
  { realTimeData := { order_count := some 5 },
    charts := { sales := some initSalesChart } }

/-- Witness for C4 at a concrete input. -/
theorem orderCreated_effects_witness :
    (({ order_number := 7, amount := 42 } : Payload).amount = 42) ∧
    c4Start.realTimeData.order_count = some 5 ∧
    c4Start.charts.sales = some initSalesChart ∧
    (handleRealTimeUpdate
        { type := "order_created", payload := { order_number := 7, amount := 42 } }
        1000 c4Start).realTimeData.order_count = some 6 ∧
    (handleRealTimeUpdate
        { type := "order_created", payload := { order_number := 7, amount := 42 } }
        1000 c4Start).charts.sales = some { labels := ["1000"], data := [42] } ∧
    (handleRealTimeUpdate
        { type := "order_created", payload := { order_number := 7, amount := 42 } }
        1000 c4Start).notifications =
      [{ type := "success", title := "New Order", message := "Order #7 created",
         icon := "fa-shopping-cart", id := 1000, timestamp := 1000 }] :=
  have h := orderCreated_effects { order_number := 7, amount := 42 } 1000 c4Start 5
    initSalesChart rfl rfl rfl rfl (by decide)
  ⟨rfl, rfl, rfl, h.1, h.2.1, h.2.2⟩

/-- C10: dispatching a `product_updated` event leaves the whole
`realTimeData` record (order, customer and error counters), every chart,
the system-health record, the toast service log, the loading flag and
the timers untouched; the only dashboard-state effect is one new
notification of type `info` in front of the queue. -/
theorem productUpdated_frame (p : Payload) (now : Nat) (c : Component) :
    (handleRealTimeUpdate { type := "product_updated", payload := p } now c).realTimeData
        = c.realTimeData ∧
    (handleRealTimeUpdate { type := "product_updated", payload := p } now c).charts = c.charts ∧
    (handleRealTimeUpdate { type := "product_updated", payload := p } now c).systemHealth
        = c.systemHealth ∧
    (handleRealTimeUpdate { type := "product_updated", payload := p } now c).serviceNotifs
        = c.serviceNotifs ∧
    (handleRealTimeUpdate { type := "product_updated", payload := p } now c).loading = c.loading ∧
    (handleRealTimeUpdate { type := "product_updated", payload := p } now c).updateInterval
        = c.updateInterval ∧
    (handleRealTimeUpdate { type := "product_updated", payload := p } now c).activeIntervals
        = c.activeIntervals ∧
    (handleRealTimeUpdate { type := "product_updated", payload := p } now c).notifications =
      mkStored { type := "info", title := "Product Updated",
                 message := "Product \"" ++ p.name ++ "\" updated",
                 icon := "fa-cube" } now :: c.notifications.take 9 := by
  have hdisp : handleRealTimeUpdate { type := "product_updated", payload := p } now c =
      addNotification
        { type := "info", title := "Product Updated",
          message := "Product \"" ++ p.name ++ "\" updated",
          icon := "fa-cube" } now c := rfl
  rw [hdisp]
  exact ⟨rfl, rfl, rfl, rfl, rfl, rfl, rfl, addNotification_notifications _ _ _⟩

/-- The state right after the C2 scenario's push: one success
notification pushed at clock 1000 on a fresh component.  The push
scheduled timer handle 0 to fire at 6000. -/
def c2Pushed : Component :=
  addNotification
    { type := "success", title := "New Order", message := "Order #7 created",
      icon := "fa-shopping-cart" } 1000 initComponent

/-- C2: the expiry timer scheduled by the push captures
`notification.id` — the `id` property of the caller's argument object,
which no call site sets — so it fires `removeNotification(undefined)`;
`findIndex(n => n.id === undefined)` finds nothing and the notification
pushed at T = 1000 is still in the queue after the timer at
T + 5000 has fired. -/
theorem expiryTimer_never_removes :
    c2Pushed.timeouts = [(0, 6000, TimerAction.removeNotif none)] ∧
    (fireTimeout 0 c2Pushed).notifications = c2Pushed.notifications ∧
    c2Pushed.notifications =
      [{ type := "success", title := "New Order", message := "Order #7 created",
         icon := "fa-shopping-cart", id := 1000, timestamp := 1000 }] := by
  decide

/-- A poll snapshot whose sales series carries 21 points — one more than
the chart window of 20. -/
def snapshot21 : Snapshot :=
  { sales_chart_data :=
      some { labels := List.replicate 21 "t", values := List.replicate 21 1 } }

/-- A component whose sales chart is initialized (empty). -/
def mountedWithSalesChart : Component :=
  { charts := { sales := some initSalesChart } }

/-- C5 counterexample: replacing via `updateCharts` with a 21-point
snapshot leaves all 21 points in the series — the code never truncates
to the 20-point capacity on replace. -/
theorem replace_exceeds_capacity :
    (updateCharts snapshot21 mountedWithSalesChart).charts.sales =
      some { labels := List.replicate 21 "t", data := List.replicate 21 1 } ∧
    (List.replicate 21 (1 : Int)).length > 20 := by
  decide

theorem updateRevenueChart_sales (data : Snapshot) (c : Component) :
    (updateRevenueChart data c).charts.sales = c.charts.sales := by
  unfold updateRevenueChart
  split <;> rfl

theorem updateCustomerChart_sales (data : Snapshot) (c : Component) :
    (updateCustomerChart data c).charts.sales = c.charts.sales := by
  unfold updateCustomerChart
  split <;> rfl

theorem updateInventoryChart_sales (data : Snapshot) (c : Component) :
    (updateInventoryChart data c).charts.sales = c.charts.sales := by
  unfold updateInventoryChart
  split <;> rfl

/-- C5 amended: when a full poll snapshot arrives, `updateCharts`
assigns the snapshot's label and value lists to the sales series
wholesale, preserving their order but with no capacity truncation — the
series afterwards holds exactly the supplied points, however many. -/
theorem updateCharts_sales_wholesale (snap : Snapshot) (c : Component)
    (cd : SalesChartData) (scd : SalesChartPayload)
    (hc : c.charts.sales = some cd) (hs : snap.sales_chart_data = some scd) :
    (updateCharts snap c).charts.sales =
      some { labels := scd.labels, data := scd.values } := by
  unfold updateCharts
  rw [updateInventoryChart_sales, updateCustomerChart_sales, updateRevenueChart_sales]
  unfold updateChartsSalesPart
  rw [hc, hs]

/-- Witness for C5's amended statement at a concrete input. -/
theorem updateCharts_sales_wholesale_witness :
    mountedWithSalesChart.charts.sales = some initSalesChart ∧
    snapshot21.sales_chart_data =
      some { labels := List.replicate 21 "t", values := List.replicate 21 1 } ∧
    (updateCharts snapshot21 mountedWithSalesChart).charts.sales =
      some { labels := List.replicate 21 "t", data := List.replicate 21 1 } :=
  ⟨rfl, rfl, updateCharts_sales_wholesale _ _ _ _ rfl rfl⟩

/-- The C6 scenario: mount starts the 30-second interval (handle 0) and
opens the socket; the channel then drops at clock 100, so `ws.onclose`
schedules the reconnect timer (handle 1, fires at 5100); then the
component unmounts. -/
def tornDown : Component :=
  willUnmount (wsOnClose 100 (initializeRealTimeUpdates initComponent))

/-- C6 counterexample: after teardown the reconnect retry timer is still
pending — able to fire and reopen a socket — and the socket that was
opened was never closed. -/
theorem reconnectTimer_survives_teardown :
    tornDown.timeouts = [(1, 5100, TimerAction.reconnect)] ∧
    tornDown.openSockets = 1 ∧
    (fireTimeout 1 tornDown).openSockets = 2 := by
  decide

/-- C6 amended: teardown only cancels the polling interval timer and
destroys the chart instances; every pending `setTimeout` — reconnect
retry and notification expiry alike — survives it, and the push channel
is not closed. -/
theorem willUnmount_cleanup_scope (c : Component) (tid : Nat)
    (h : c.updateInterval = some tid) :
    tid ∉ (willUnmount c).activeIntervals ∧
    (willUnmount c).timeouts = c.timeouts ∧
    (willUnmount c).openSockets = c.openSockets ∧
    (willUnmount c).charts = {} := by
  unfold willUnmount clearUpdateInterval
  rw [h]
  refine ⟨?_, rfl, rfl, rfl⟩
  intro hmem
  simp [List.mem_filter] at hmem

/-- Witness for C6's amended statement at a concrete input. -/
theorem willUnmount_cleanup_scope_witness :
    (wsOnClose 100 (initializeRealTimeUpdates initComponent)).updateInterval = some 0 ∧
    0 ∉ tornDown.activeIntervals ∧
    tornDown.timeouts = (wsOnClose 100 (initializeRealTimeUpdates initComponent)).timeouts ∧
    tornDown.openSockets = (wsOnClose 100 (initializeRealTimeUpdates initComponent)).openSockets ∧
    tornDown.charts = {} :=
  have h := willUnmount_cleanup_scope (wsOnClose 100 (initializeRealTimeUpdates initComponent))
    0 rfl
  ⟨rfl, h.1, h.2.1, h.2.2.1, h.2.2.2⟩

/-- A failed `loadDashboardData` run: one toast-service message, the
loading flag cleared; nothing else changes. -/
theorem loadDashboardData_failure (c : Component) :
    loadDashboardData none c =
      { c with loading := false,
               serviceNotifs :=
                 c.serviceNotifs ++ [("Failed to load dashboard data", "danger")] } := rfl

/-- C7 counterexample: a failed poll on the freshly set-up component
adds nothing to the store's notification queue — the danger message goes
to the framework toast service instead. -/
theorem pollFailure_bypasses_store_queue :
    (loadDashboardData none initComponent).notifications = [] ∧
    (loadDashboardData none initComponent).serviceNotifs =
      [("Failed to load dashboard data", "danger")] := by
  decide

/-- C7 amended: after any number `n` of consecutive failed polls the
interval timer is exactly as before (the catch path never clears it), so
the next tick still attempts a fetch; each failure adds exactly one
danger message via the framework toast service, and the store's bounded
notification queue is untouched throughout. -/
theorem pollFailure_keeps_polling (n : Nat) (c : Component) :
    ((loadDashboardData none)^[n] c).activeIntervals = c.activeIntervals ∧
    ((loadDashboardData none)^[n] c).updateInterval = c.updateInterval ∧
    ((loadDashboardData none)^[n] c).notifications = c.notifications ∧
    ((loadDashboardData none)^[n] c).serviceNotifs =
      c.serviceNotifs ++ List.replicate n ("Failed to load dashboard data", "danger") ∧
    (∀ tid res, c.updateInterval = some tid → tid ∈ c.activeIntervals →
      intervalTick res ((loadDashboardData none)^[n] c) =
        loadDashboardData res ((loadDashboardData none)^[n] c)) := by
  have key : ∀ m : Nat,
      ((loadDashboardData none)^[m] c).activeIntervals = c.activeIntervals ∧
      ((loadDashboardData none)^[m] c).updateInterval = c.updateInterval ∧
      ((loadDashboardData none)^[m] c).notifications = c.notifications ∧
      ((loadDashboardData none)^[m] c).serviceNotifs =
        c.serviceNotifs ++ List.replicate m ("Failed to load dashboard data", "danger") := by
    intro m
    induction m with
    | zero => simp
    | succ m ih =>
        obtain ⟨h1, h2, h3, h4⟩ := ih
        rw [Function.iterate_succ_apply', loadDashboardData_failure]
        refine ⟨h1, h2, h3, ?_⟩
        show ((loadDashboardData none)^[m] c).serviceNotifs ++ _ = _
        rw [h4, List.replicate_succ', List.append_assoc]
  obtain ⟨h1, h2, h3, h4⟩ := key n
  refine ⟨h1, h2, h3, h4, ?_⟩
  intro tid res hu ha
  unfold intervalTick
  rw [h2, hu, h1]
  simp [ha]

/-- The component as `onWillStart` leaves it after a successful initial
fetch: loaded, interval handle 0 active, socket open. -/
def mounted : Component :=
  initializeRealTimeUpdates (loadDashboardData (some emptySnapshot) initComponent)

/-- Witness for C7's amended statement: three consecutive failures on
the mounted component, then the fourth tick still fetches. -/
theorem pollFailure_keeps_polling_witness :
    mounted.updateInterval = some 0 ∧
    0 ∈ mounted.activeIntervals ∧
    ((loadDashboardData none)^[3] mounted).activeIntervals = mounted.activeIntervals ∧
    ((loadDashboardData none)^[3] mounted).notifications = mounted.notifications ∧
    ((loadDashboardData none)^[3] mounted).serviceNotifs =
      mounted.serviceNotifs ++
        List.replicate 3 ("Failed to load dashboard data", "danger") ∧
    intervalTick none ((loadDashboardData none)^[3] mounted) =
      loadDashboardData none ((loadDashboardData none)^[3] mounted) :=
  have h := pollFailure_keeps_polling 3 mounted
  ⟨rfl, by decide, h.1, h.2.2.1, h.2.2.2.1,
   h.2.2.2.2 0 none rfl (by decide)⟩

/-- C8 counterexample: a frame `JSON.parse` rejects makes the
`onmessage` handler itself throw — the parse error escapes the handling
of that message (the handler has no `try`/`catch`). -/
theorem unparseableFrame_throws :
    wsOnMessage (Except.error "SyntaxError: Unexpected token") 0 initComponent =
      Except.error "SyntaxError: Unexpected token" := rfl

/-- C8 amended: a frame that parses but whose `type` is none of the five
known kinds is discarded with no state mutation and no exception — the
`switch` has no `default` clause; an unparseable frame also mutates no
state, but its parse exception propagates out of the message handler. -/
theorem unknownType_discarded (m : Message) (now : Nat) (c : Component)
    (h1 : m.type ≠ "order_created") (h2 : m.type ≠ "product_updated")
    (h3 : m.type ≠ "customer_synced") (h4 : m.type ≠ "error_occurred")
    (h5 : m.type ≠ "system_health") :
    wsOnMessage (Except.ok m) now c = Except.ok c := by
  simp [wsOnMessage, handleRealTimeUpdate, h1, h2, h3, h4, h5]

/-- Witness for C8's amended statement at the spec's own scenario input
`type: "unknown_kind"`. -/
theorem unknownType_discarded_witness :
    ("unknown_kind" : String) ≠ "order_created" ∧
    wsOnMessage (Except.ok { type := "unknown_kind", payload := {} }) 0 initComponent =
      Except.ok initComponent :=
  ⟨by decide,
   unknownType_discarded { type := "unknown_kind", payload := {} } 0 initComponent
     (by decide) (by decide) (by decide) (by decide) (by decide)⟩

/-- C9 counterexample: after the initial fetch has completed (`loading`
is back to `false`), the next background poll runs the very same
`loadDashboardData`, whose first statement sets `this.state.loading =
true` again — a background poll does toggle the busy flag. -/
theorem backgroundPoll_toggles_loading :
    mounted.loading = false ∧
    (loadDashboardDataStart mounted).loading = true := by
  decide

/-- C9 amended: every `loadDashboardData` run — the initial fetch and
every subsequent background poll alike — sets the busy flag for the
duration of the in-flight fetch and clears it in the `finally` block. -/
theorem loading_toggled_every_fetch (c : Component) (result : Option Snapshot) :
    (loadDashboardDataStart c).loading = true ∧
    (loadDashboardData result c).loading = false := by
  refine ⟨rfl, ?_⟩
  cases result <;> rfl

end Dashboard
